import Mathlib

/-!
Verification of the OrbitalSatelliteTracker repository: a shallow embedding
of `tle_fetcher.py`, `propagate.py` and `main.py` together with theorems
settling the specification claims about them.

Modelling conventions:
- Python floats are modelled by rationals.
- A Python `datetime` instant is modelled by a rational number of days on
  the proleptic Gregorian ordinal scale of `datetime.toordinal` (the value
  `1` is 0001-01-01 at 00:00, fractions are fractions of a day).
- Raising an exception is modelled by `Except.error` carrying the message.
- The external `sgp4` kernel (`Satrec.twoline2rv` followed by `.sgp4`) is a
  parameter of `propagate`: a function from the satellite record and the
  Julian-day instant to an error code plus a position/velocity pair.
- Module-level side effects are modelled by threading a `World` value that
  records the remote catalog text and a log of network requests.
-/

set_option maxRecDepth 2000

namespace OrbitalTracker

/-- Record produced by `fetch_tle` in `tle_fetcher.py`: the dataclass
`SatelliteTLE` with a name and the two raw TLE lines. -/
structure SatelliteTLE where
  name : String
  line1 : String
  line2 : String
  deriving DecidableEq

/-- Network side effects observable in the model. -/
inductive NetEffect where
  | get (url : String)
  deriving DecidableEq

/-- The outside world: the current remote catalog text and the log of
network requests issued so far. -/
structure World where
  remote : String
  log : List NetEffect
  deriving DecidableEq

/-- An HTTP response as used by the repository: only its `.text` matters. -/
structure Response where
  text : String
  deriving DecidableEq

/-- The URL requested at the top of `tle_fetcher.py`. -/
def catalogURL : String :=
  "https://celestrak.org/NORAD/elements/gp.php?GROUP=active&FORMAT=tle"

/-- Model of `requests.get`: appends a network-request effect to the world
log and returns the current remote text as the response body. -/
def requests_get (w : World) (url : String) : World × Response :=
  ({ w with log := w.log ++ [NetEffect.get url] }, { text := w.remote })

/-- The state a loaded `tle_fetcher` module holds: the module-level
variable `r`, captured when the module body runs. -/
structure TleFetcherModule where
  r : Response
  deriving DecidableEq

/-- Model of importing `tle_fetcher.py`: its module body executes
`r = requests.get(catalogURL)` as a side effect of loading. -/
def import_tle_fetcher (w : World) : World × TleFetcherModule :=
  ((requests_get w catalogURL).1, { r := (requests_get w catalogURL).2 })

/-- Model of Python `str.strip()` on a character list: removes leading
and trailing whitespace. -/
def stripChars (l : List Char) : List Char :=
  ((l.dropWhile Char.isWhitespace).reverse.dropWhile Char.isWhitespace).reverse

/-- Model of Python `str.strip()`. -/
def stripModel (s : String) : String :=
  (stripChars s.data).asString

/-- Model of Python `str.splitlines` restricted to the line breaks that
occur in TLE catalogs: splits on LF, CR and CRLF and does not produce a
trailing empty line for a trailing newline.  The first argument tells
whether the previous character was a CR (so that a following LF is part of
the same break); the second is the reversed accumulator of the current
line. -/
def splitlinesGo : Bool → List Char → List Char → List String
  | _, acc, [] => if acc.isEmpty then [] else [acc.reverse.asString]
  | skipLF, acc, c :: rest =>
    if skipLF && c = '\n' then splitlinesGo false acc rest
    else if c = '\n' then acc.reverse.asString :: splitlinesGo false [] rest
    else if c = '\r' then acc.reverse.asString :: splitlinesGo true [] rest
    else splitlinesGo false (c :: acc) rest

/-- Model of `r.text.splitlines()` in `fetch_tle`. -/
def splitlinesModel (s : String) : List String :=
  splitlinesGo false [] s.data

/-- The 3-line groups visited by the loop
`for i in range(0, len(lines), 3)` in `fetch_tle`:
`(lines[i], lines[i+1], lines[i+2])`. -/
def tleGroups : List String → List (String × String × String)
  | n :: l1 :: l2 :: rest => (n, l1, l2) :: tleGroups rest
  | _ => []

/-- Lookup in the association-list model of a Python dict. -/
def lookupD : List (String × SatelliteTLE) → String → Option SatelliteTLE
  | [], _ => none
  | (k, v) :: rest, q => if q = k then some v else lookupD rest q

/-- Model of Python dict assignment `tle[name] = s`: if the key is present
its value is replaced in place, otherwise the pair is appended. -/
def dictInsert : List (String × SatelliteTLE) → String → SatelliteTLE →
    List (String × SatelliteTLE)
  | [], k, v => [(k, v)]
  | (k0, v0) :: rest, k, v =>
    if k0 = k then (k0, v) :: rest else (k0, v0) :: dictInsert rest k v

/-- The `SatelliteTLE` value built from one 3-line group in `fetch_tle`:
`SatelliteTLE(name=lines[i].strip(), line1=lines[i+1], line2=lines[i+2])`. -/
def mkSat (g : String × String × String) : SatelliteTLE :=
  { name := stripModel g.1, line1 := g.2.1, line2 := g.2.2 }

/-- One iteration of the loop body of `fetch_tle`. -/
def dictStep (m : List (String × SatelliteTLE)) (g : String × String × String) :
    List (String × SatelliteTLE) :=
  dictInsert m (stripModel g.1) (mkSat g)

/-- The dict built by the loop of `fetch_tle` over the 3-line groups. -/
def buildDict (gs : List (String × String × String)) :
    List (String × SatelliteTLE) :=
  gs.foldl dictStep []

/-- The core of `fetch_tle` as a function of the response text: split into
lines, require a multiple of 3 (else `raise ValueError`), then build the
name-keyed dict from the 3-line groups. -/
def fetchTleOfText (text : String) :
    Except String (List (String × SatelliteTLE)) :=
  if (splitlinesModel text).length % 3 ≠ 0 then
    Except.error "TLE does not have enough lines"
  else Except.ok (buildDict (tleGroups (splitlinesModel text)))

/-- `fetch_tle` from `tle_fetcher.py`: reads the module-level response `r`
captured at import time and parses its text.  It takes no other input and
performs no network request of its own. -/
def fetch_tle (m : TleFetcherModule) :
    Except String (List (String × SatelliteTLE)) :=
  fetchTleOfText m.r.text

/-- A call of `fetch_tle` as an interaction with the world: the call reads
only the module state and leaves the world (in particular its request log
and remote text) unchanged. -/
def fetch_tle_call (w : World) (m : TleFetcherModule) :
    World × Except String (List (String × SatelliteTLE)) :=
  (w, fetch_tle m)

/-!
Model of `propagate.py`.
-/

/-- The two-digit year extracted in `tle_epoch_to_datetime`:
`year_short = int(epoch // 1000)` (floor division on a nonnegative float). -/
def yearShort (epoch : ℚ) : ℤ := ⌊epoch / 1000⌋

/-- The year computed in `tle_epoch_to_datetime`:
`year = 2000 + year_short` — the code always interprets the two-digit year
in the 2000 to 2099 range. -/
def yearOfEpoch (epoch : ℚ) : ℤ := 2000 + yearShort epoch

/-- The fractional day-of-year extracted in `tle_epoch_to_datetime`:
`day_of_year = epoch % 1000` (Python float modulo, nonnegative divisor). -/
def dayOfYear (epoch : ℚ) : ℚ := epoch - 1000 * ⌊epoch / 1000⌋

/-- Days of the proleptic Gregorian calendar strictly before January 1 of
year `y` counted from 0001-01-01, as in Python `datetime`:
`365*(y-1) + (y-1)//4 - (y-1)//100 + (y-1)//400`. -/
def daysBeforeYear (y : ℤ) : ℤ :=
  365 * (y - 1) + (y - 1) / 4 - (y - 1) / 100 + (y - 1) / 400

/-- The ordinal instant of `datetime(y, 1, 1)`: midnight of January 1 of
year `y` (`datetime.toordinal` of 0001-01-01 is 1). -/
def jan1Ordinal (y : ℤ) : ℤ := daysBeforeYear y + 1

/-- `tle_epoch_to_datetime` from `propagate.py` on the ordinal-day scale:
`base = datetime(year, 1, 1)` followed by
`dt = base + timedelta(days=day_of_year)`. -/
def tle_epoch_to_datetime (epoch : ℚ) : ℚ :=
  (jan1Ordinal (yearOfEpoch epoch) : ℚ) + dayOfYear epoch

/-- `datetime_to_jday` from `propagate.py`, with the `(jd, fr)` pair that
`jday` returns modelled by its sum: the Julian day of an ordinal instant
`t` is `t + 1721424.5`. -/
def datetime_to_jday (t : ℚ) : ℚ := t + 1721424 + 1 / 2

/-- The value of a list of decimal digit characters. -/
def digitsVal (l : List Char) : ℕ :=
  l.foldl (fun n c => 10 * n + (c.toNat - 48)) 0

/-- Components of a decimal literal: whether it is negated, the integer
part, the fractional part and the number of fractional digits. -/
structure DecimalParts where
  neg : Bool
  intPart : ℕ
  fracPart : ℕ
  fracLen : ℕ
  deriving DecidableEq

/-- Digit scanning of Python `float(s)` restricted to plain decimal
notation (the only shape the TLE epoch field takes): surrounding
whitespace stripped, an optional sign, digits, and an optional fractional
part after one dot.  `none` is where `float` raises `ValueError`. -/
def parseDecimalParts (s : String) : Option DecimalParts :=
  let core : Bool → List Char → Option DecimalParts := fun sgn u =>
    let ip := u.takeWhile Char.isDigit
    let rest := u.dropWhile Char.isDigit
    match rest with
    | [] =>
      if ip.isEmpty then none
      else some { neg := sgn, intPart := digitsVal ip, fracPart := 0, fracLen := 0 }
    | '.' :: frac =>
      if frac.all Char.isDigit && !(ip.isEmpty && frac.isEmpty) then
        some { neg := sgn, intPart := digitsVal ip, fracPart := digitsVal frac,
               fracLen := frac.length }
      else none
    | _ => none
  match stripChars s.data with
  | '-' :: u => core true u
  | '+' :: u => core false u
  | u => core false u

/-- The rational value of decimal components. -/
def partsToRat (p : DecimalParts) : ℚ :=
  (if p.neg then -1 else 1) * ((p.intPart : ℚ) + (p.fracPart : ℚ) / 10 ^ p.fracLen)

/-- Decimal-notation core of Python `float(s)` as used on the epoch
field. -/
def parseDecimal (s : String) : Option ℚ :=
  (parseDecimalParts s).map partsToRat

/-- The epoch extraction in `propagate`:
`extract_epoch = float(sat.line1[18:32])` — columns 19 to 32 (1-based) of
line 1. -/
def extract_epoch (sat : SatelliteTLE) : Option ℚ :=
  parseDecimal ((sat.line1.data.drop 18).take 14).asString

/-- The ordinal instant at which `propagate` evaluates the orbit:
`dt_tsince = dt_epoch + timedelta(minutes=tsince_minutes)`. -/
def evalInstant (epoch tsinceMinutes : ℚ) : ℚ :=
  tle_epoch_to_datetime epoch + tsinceMinutes / 1440

/-- What the external sgp4 kernel reports for one query: the error code
and the position/velocity pair of `satrec.sgp4(jd, fr)`. -/
structure KernelResult where
  errorCode : ℤ
  position : ℚ × ℚ × ℚ
  velocity : ℚ × ℚ × ℚ
  deriving DecidableEq

/-- The tail of `propagate`: `raise ValueError(f"Error code: {n}")` when
the kernel error code is nonzero, otherwise return the pair. -/
def kernelOutcome (k : KernelResult) :
    Except String ((ℚ × ℚ × ℚ) × (ℚ × ℚ × ℚ)) :=
  if k.errorCode ≠ 0 then
    Except.error ("Error code: " ++ toString k.errorCode)
  else Except.ok (k.position, k.velocity)

/-- `propagate` from `propagate.py`, parameterised by the external sgp4
kernel (`Satrec.twoline2rv(line1, line2)` followed by `.sgp4(jd, fr)`,
taken as a function of the satellite record and the Julian-day instant):
extract the epoch from line 1 columns 19 to 32, convert it with
`tle_epoch_to_datetime`, add `tsince_minutes` minutes, convert to a Julian
day and call the kernel; a nonzero kernel error code raises `ValueError`.
A failing `float` conversion also raises `ValueError`. -/
def propagate (kernel : SatelliteTLE → ℚ → KernelResult)
    (sat : SatelliteTLE) (tsinceMinutes : ℚ) :
    Except String ((ℚ × ℚ × ℚ) × (ℚ × ℚ × ℚ)) :=
  match extract_epoch sat with
  | none => Except.error "could not convert string to float"
  | some e =>
    kernelOutcome (kernel sat (datetime_to_jday (evalInstant e tsinceMinutes)))

/-!
Definitions taken from the wording of the specification, for comparison
with the code.
-/

/-- Modelled from the spec: the split-year convention for resolving a
two-digit TLE epoch year — years below 57 belong to the 2000s, years from
57 on to the 1900s. -/
def splitYearRule (yy : ℤ) : ℤ := if yy < 57 then 2000 + yy else 1900 + yy

/-- Modelled from the spec: the instant encoded by a TLE epoch under the
standard convention in which day 1 is January 1 — January 1 of the
resolved year plus `day_of_year - 1` days. -/
def specEpochInstant (epoch : ℚ) : ℚ :=
  (jan1Ordinal (yearOfEpoch epoch) : ℚ) + (dayOfYear epoch - 1)

/-!
Concrete fixtures used by witnesses and counterexamples.
-/

/-- A concrete satellite record whose line 1 carries the epoch field
`24001.00000000` (day 1.0 of 2024) in columns 19 to 32. -/
def exSat : SatelliteTLE :=
  { name := "ISS (ZARYA)"
    line1 := "1 25544U 98067A   24001.00000000  .00016717  00000-0  10270-3 0  9005"
    line2 := "2 25544  51.6400 208.9163 0006317  69.9862 332.3249 15.49454906 87673" }

/-- A kernel that reports success exactly when queried at the Julian day
of the conventional epoch instant of `24001.00000000`, and error code 9
anywhere else: it observes the instant `propagate` actually uses. -/
def probeKernel : SatelliteTLE → ℚ → KernelResult := fun _ jd =>
  if jd = datetime_to_jday (specEpochInstant 24001) then
    { errorCode := 0, position := (7000, 0, 0), velocity := (0, 7, 0) }
  else { errorCode := 9, position := (0, 0, 0), velocity := (0, 0, 0) }

/-- A kernel that always reports the sgp4 decay error code 6. -/
def decayKernel : SatelliteTLE → ℚ → KernelResult := fun _ _ =>
  { errorCode := 6, position := (0, 0, 0), velocity := (0, 0, 0) }

/-- A kernel that always reports error code 4 (a numerical failure). -/
def errKernel : SatelliteTLE → ℚ → KernelResult := fun _ _ =>
  { errorCode := 4, position := (0, 0, 0), velocity := (0, 0, 0) }

/-- The value of the last 3-line group whose stripped name line is `q`:
the entry `fetch_tle` keeps under a duplicated name.  A group later in
the list takes priority over every earlier one. -/
def lastGroupMatch : List (String × String × String) → String → Option SatelliteTLE
  | [], _ => none
  | g :: gs, q =>
    match lastGroupMatch gs q with
    | some v => some v
    | none => if stripModel g.1 = q then some (mkSat g) else none

/-- A catalog text with two 3-line groups whose name lines strip to the
same key. -/
def dupCatalog : String := "A\nL1\nL2\nA \nL3\nL4"

/-!
Helper lemmas.
-/

/-- Floor of a scaled decomposition: the two-digit year digits of an
epoch value. -/
theorem floorThousand (yy : ℤ) (d : ℚ) (h0 : 0 ≤ d) (h1 : d < 1000) :
    ⌊(1000 * (yy : ℚ) + d) / 1000⌋ = yy := by
  have h : (1000 * (yy : ℚ) + d) / 1000 = d / 1000 + (yy : ℚ) := by ring
  rw [h, Int.floor_add_int]
  have h2 : ⌊d / 1000⌋ = 0 := by
    rw [Int.floor_eq_zero_iff]
    constructor
    · positivity
    · exact (div_lt_one (by norm_num : (0 : ℚ) < 1000)).mpr h1
  omega

/-- The epoch field of `exSat` parses to the epoch value 24001. -/
theorem extract_epoch_exSat : extract_epoch exSat = some 24001 := by
  have h : parseDecimalParts ((exSat.line1.data.drop 18).take 14).asString
      = some { neg := false, intPart := 24001, fracPart := 0, fracLen := 8 } := by
    decide
  rw [extract_epoch, parseDecimal, h]
  simp [partsToRat]

/-- The evaluation instant for the concrete epoch 24001 is one day after
the conventional epoch instant. -/
theorem evalInstant_24001 : evalInstant 24001 0 = specEpochInstant 24001 + 1 := by
  have hfl : ⌊(24001 : ℚ) / 1000⌋ = (24 : ℤ) := by
    have h : (24001 : ℚ) = 1000 * ((24 : ℤ) : ℚ) + 1 := by norm_num
    rw [h]
    exact floorThousand 24 1 (by norm_num) (by norm_num)
  unfold evalInstant specEpochInstant tle_epoch_to_datetime dayOfYear yearOfEpoch yearShort
  rw [hfl]
  ring

/-!
Claim theorems.
-/

/-- C1: the code contradicts the claim that `propagate` evaluates the
orbit at the TLE epoch (day 1 being January 1) plus `tsince_minutes`
minutes with no constant offset.  At the failing input — epoch field
`24001.00000000`, `tsince = 0` — the evaluation instant is the
conventional epoch instant plus one full day, and a kernel probing for
the conventional epoch instant is never queried there: `propagate` fails
with error code 9 instead of reaching the success branch. -/
theorem propagate_evaluates_one_day_late :
    evalInstant 24001 0 = specEpochInstant 24001 + 1
    ∧ evalInstant 24001 0 ≠ specEpochInstant 24001 + 0 / 1440
    ∧ propagate probeKernel exSat 0 = Except.error "Error code: 9" := by
  have heq := evalInstant_24001
  have hne : evalInstant 24001 0 ≠ specEpochInstant 24001 + 0 / 1440 := by
    rw [heq]
    intro hcon
    have h0 : (0 : ℚ) / 1440 = 0 := by norm_num
    rw [h0, add_zero] at hcon
    linarith
  refine ⟨heq, hne, ?_⟩
  have hcond : datetime_to_jday (evalInstant 24001 0)
      ≠ datetime_to_jday (specEpochInstant 24001) := by
    unfold datetime_to_jday
    rw [heq]
    intro hcon
    linarith
  simp only [propagate, extract_epoch_exSat, probeKernel, if_neg hcond, kernelOutcome]
  norm_num
  rfl

/-- C2 counterexample: for an epoch whose two-digit year is 57, the code
resolves the year to 2057, not the 1957 the split-year convention
demands. -/
theorem yearOfEpoch_57_not_split :
    yearOfEpoch 57001 ≠ splitYearRule 57 ∧ yearOfEpoch 57001 = 2057 := by
  have h : (57001 : ℚ) = 1000 * ((57 : ℤ) : ℚ) + 1 := by norm_num
  have h2 : yearOfEpoch 57001 = 2000 + 57 := by
    rw [h, yearOfEpoch, yearShort, floorThousand 57 1 (by norm_num) (by norm_num)]
  constructor
  · rw [h2]
    simp [splitYearRule]
  · rw [h2]
    norm_num

/-- C2 amended: the code resolves the two-digit year of every epoch value
as 2000 + YY; this agrees with the split-year convention exactly when
YY < 57. -/
theorem yearOfEpoch_always_2000s (yy : ℤ) (d : ℚ) (h0 : 0 ≤ d) (h1 : d < 1000) :
    yearOfEpoch (1000 * (yy : ℚ) + d) = 2000 + yy
    ∧ (yearOfEpoch (1000 * (yy : ℚ) + d) = splitYearRule yy ↔ yy < 57) := by
  have h2 : yearOfEpoch (1000 * (yy : ℚ) + d) = 2000 + yy := by
    rw [yearOfEpoch, yearShort, floorThousand yy d h0 h1]
  refine ⟨h2, ?_⟩
  rw [h2, splitYearRule]
  by_cases hy : yy < 57
  · simp [hy]
  · simp [hy]

/-- C2 witness: at YY = 57 the code yields 2057 and disagrees with the
split-year rule. -/
theorem yearOfEpoch_always_2000s_witness :
    yearOfEpoch (1000 * ((57 : ℤ) : ℚ) + 0) = 2000 + 57
    ∧ (yearOfEpoch (1000 * ((57 : ℤ) : ℚ) + 0) = splitYearRule 57 ↔ (57 : ℤ) < 57) :=
  yearOfEpoch_always_2000s 57 0 (by norm_num) (by norm_num)

/-- C3 counterexample: at a concrete decayed query — the kernel reports
the sgp4 decay error code 6 — `propagate` raises `ValueError` instead of
returning a distinct non-exceptional Decayed outcome; no such outcome
exists in its result surface. -/
theorem propagate_decay_raises :
    propagate decayKernel exSat 1000 = Except.error "Error code: 6" := by
  simp only [propagate, extract_epoch_exSat, decayKernel, kernelOutcome]
  norm_num
  rfl

/-- C3 amended: whenever the kernel reports the decay error code 6,
`propagate` raises `ValueError("Error code: 6")` — decay is funnelled
into the same exceptional channel as every other nonzero kernel error
code, with no distinct Decayed outcome. -/
theorem propagate_decay_code_is_error (kernel : SatelliteTLE → ℚ → KernelResult)
    (sat : SatelliteTLE) (t e : ℚ) (h : extract_epoch sat = some e)
    (h6 : (kernel sat (datetime_to_jday (evalInstant e t))).errorCode = 6) :
    propagate kernel sat t = Except.error "Error code: 6" := by
  simp only [propagate, h, kernelOutcome, h6]
  norm_num
  rfl

/-- C3 witness: the amended statement at a concrete decayed query. -/
theorem propagate_decay_code_is_error_witness :
    propagate decayKernel exSat 500 = Except.error "Error code: 6" :=
  propagate_decay_code_is_error decayKernel exSat 500 24001 extract_epoch_exSat rfl

/-- C5: a kernel-reported failure (any nonzero error code) is surfaced to
the caller as the `ValueError` carrying that code, and `propagate` never
returns a state vector in its place. -/
theorem propagate_surfaces_kernel_error (kernel : SatelliteTLE → ℚ → KernelResult)
    (sat : SatelliteTLE) (t e : ℚ) (h : extract_epoch sat = some e)
    (herr : (kernel sat (datetime_to_jday (evalInstant e t))).errorCode ≠ 0) :
    propagate kernel sat t
      = Except.error ("Error code: "
          ++ toString (kernel sat (datetime_to_jday (evalInstant e t))).errorCode)
    ∧ ∀ pv, propagate kernel sat t ≠ Except.ok pv := by
  constructor
  · simp only [propagate, h, kernelOutcome, if_pos herr]
  · intro pv hcon
    simp only [propagate, h, kernelOutcome, if_pos herr] at hcon
    exact Except.noConfusion hcon

/-- C5 witness: a kernel failing with error code 4 at a concrete record is
surfaced. -/
theorem propagate_surfaces_kernel_error_witness :
    propagate errKernel exSat 0
      = Except.error ("Error code: "
          ++ toString (errKernel exSat (datetime_to_jday (evalInstant 24001 0))).errorCode) :=
  (propagate_surfaces_kernel_error errKernel exSat 0 24001 extract_epoch_exSat
    (by decide)).1

/-- C7: propagation is deterministic — identical inputs (the same kernel,
satellite record and `tsince`) yield identical outputs, successes and
error classifications alike. -/
theorem propagate_deterministic (kernel : SatelliteTLE → ℚ → KernelResult)
    (sat1 sat2 : SatelliteTLE) (t1 t2 : ℚ) (hs : sat1 = sat2) (ht : t1 = t2) :
    propagate kernel sat1 t1 = propagate kernel sat2 t2 := by
  rw [hs, ht]

/-- C7 witness: determinism at a concrete record and offset. -/
theorem propagate_deterministic_witness :
    propagate errKernel exSat 0 = propagate errKernel exSat 0 :=
  propagate_deterministic errKernel exSat exSat 0 0 rfl rfl

/-- Looking up a key after a dict assignment: the assigned key maps to the
new value, every other key is untouched. -/
theorem lookupD_dictInsert (m : List (String × SatelliteTLE)) (k : String)
    (v : SatelliteTLE) (q : String) :
    lookupD (dictInsert m k v) q = if q = k then some v else lookupD m q := by
  induction m with
  | nil =>
    by_cases hq : q = k
    · simp [dictInsert, lookupD, hq]
    · simp [dictInsert, lookupD, hq]
  | cons p rest ih =>
    obtain ⟨k0, v0⟩ := p
    by_cases hk : k0 = k
    · subst hk
      by_cases hq : q = k0
      · simp [dictInsert, lookupD, hq]
      · simp [dictInsert, lookupD, hq]
    · by_cases hq : q = k0
      · have hqk : ¬ q = k := by rw [hq]; exact hk
        simp [dictInsert, lookupD, hk, hq, hqk]
      · simp [dictInsert, lookupD, hk, hq, ih]

/-- Looking up a key after folding the `fetch_tle` loop over a list of
groups: the last matching group wins, and keys of no group fall back to
the accumulator. -/
theorem lookupD_foldl (gs : List (String × String × String))
    (m : List (String × SatelliteTLE)) (q : String) :
    lookupD (gs.foldl dictStep m) q
      = match lastGroupMatch gs q with
        | some v => some v
        | none => lookupD m q := by
  induction gs generalizing m with
  | nil => simp [lastGroupMatch]
  | cons g rest ih =>
    rw [List.foldl_cons, ih (dictStep m g)]
    simp only [lastGroupMatch]
    cases hlm : lastGroupMatch rest q with
    | some v => simp
    | none =>
      simp only [dictStep, lookupD_dictInsert]
      by_cases hq : stripModel g.1 = q
      · rw [if_pos hq.symm, if_pos hq]
      · rw [if_neg (fun h => hq h.symm), if_neg hq]

/-- A dict assignment grows the dict by at most one entry. -/
theorem dictInsert_length (m : List (String × SatelliteTLE)) (k : String)
    (v : SatelliteTLE) :
    (dictInsert m k v).length ≤ m.length + 1 := by
  induction m with
  | nil => simp [dictInsert]
  | cons p rest ih =>
    obtain ⟨k0, v0⟩ := p
    by_cases hk : k0 = k
    · simp [dictInsert, hk]
    · simp only [dictInsert, if_neg hk, List.length_cons]
      omega

/-- Folding the `fetch_tle` loop adds at most one entry per group. -/
theorem foldl_dictStep_length (gs : List (String × String × String))
    (m : List (String × SatelliteTLE)) :
    (gs.foldl dictStep m).length ≤ m.length + gs.length := by
  induction gs generalizing m with
  | nil => simp
  | cons g rest ih =>
    rw [List.foldl_cons]
    have h1 := ih (dictStep m g)
    have h2 : (dictStep m g).length ≤ m.length + 1 := by
      rw [dictStep]
      exact dictInsert_length m (stripModel g.1) (mkSat g)
    simp only [List.length_cons]
    omega

/-- C9: on a catalog whose line count is a multiple of 3, `fetch_tle`
returns a dictionary keyed by the whitespace-stripped name line of each
3-line group; under a duplicated stripped name only the last group is
kept, so the dictionary may hold fewer entries than there are groups. -/
theorem fetch_tle_last_duplicate_wins (m : TleFetcherModule)
    (d : List (String × SatelliteTLE))
    (hlen : (splitlinesModel m.r.text).length % 3 = 0)
    (hok : fetch_tle m = Except.ok d) :
    (∀ q : String,
      lookupD d q = lastGroupMatch (tleGroups (splitlinesModel m.r.text)) q)
    ∧ d.length ≤ (tleGroups (splitlinesModel m.r.text)).length := by
  have hd : d = buildDict (tleGroups (splitlinesModel m.r.text)) := by
    rw [fetch_tle, fetchTleOfText, if_neg (by simp [hlen])] at hok
    injection hok with h
    exact h.symm
  subst hd
  refine ⟨fun q => ?_, ?_⟩
  · rw [buildDict, lookupD_foldl]
    cases hc : lastGroupMatch (tleGroups (splitlinesModel m.r.text)) q with
    | some v => simp
    | none => simp [lookupD]
  · rw [buildDict]
    have h := foldl_dictStep_length (tleGroups (splitlinesModel m.r.text)) []
    simpa using h

/-- C9 witness: on a concrete catalog with two groups whose names strip to
the same key, `fetch_tle` keeps only the last pair of lines. -/
theorem fetch_tle_last_duplicate_wins_witness :
    lookupD [("A", { name := "A", line1 := "L3", line2 := "L4" })] "A"
      = lastGroupMatch (tleGroups (splitlinesModel dupCatalog)) "A"
    ∧ ([("A", ({ name := "A", line1 := "L3", line2 := "L4" } : SatelliteTLE))]).length
      ≤ (tleGroups (splitlinesModel dupCatalog)).length := by
  have h := fetch_tle_last_duplicate_wins { r := { text := dupCatalog } }
    [("A", { name := "A", line1 := "L3", line2 := "L4" })] (by decide) (by rfl)
  exact ⟨h.1 "A", h.2⟩

/-- C4 counterexample: a 3-line catalog whose data lines are 2 characters
long (and so cannot carry a valid column-69 checksum) is parsed into a
record without any error — there is no MalformedTLE rejection. -/
theorem fetch_tle_accepts_short_line :
    ("AB".length ≠ 69)
    ∧ fetch_tle { r := { text := "ISS\nAB\nCD" } }
      = Except.ok [("ISS", { name := "ISS", line1 := "AB", line2 := "CD" })] := by
  refine ⟨by decide, ?_⟩
  rfl

/-- C4 amended: `fetch_tle` performs no per-line validation at all — no
checksum and no length check.  Every catalog whose line count is a
multiple of 3 parses successfully whatever the lines contain, and the
only failure is a line count not divisible by 3, which raises
`ValueError`. -/
theorem fetch_tle_only_checks_line_count (m : TleFetcherModule) :
    ((splitlinesModel m.r.text).length % 3 = 0 →
      fetch_tle m = Except.ok (buildDict (tleGroups (splitlinesModel m.r.text))))
    ∧ ((splitlinesModel m.r.text).length % 3 ≠ 0 →
      fetch_tle m = Except.error "TLE does not have enough lines") := by
  constructor
  · intro h
    rw [fetch_tle, fetchTleOfText, if_neg (by simp [h])]
  · intro h
    rw [fetch_tle, fetchTleOfText, if_pos h]

/-- C4 witness: the amended statement at a malformed 3-line catalog and at
a 2-line catalog. -/
theorem fetch_tle_only_checks_line_count_witness :
    fetch_tle { r := { text := "ISS\nAB\nCD" } }
      = Except.ok (buildDict (tleGroups (splitlinesModel "ISS\nAB\nCD")))
    ∧ fetch_tle { r := { text := "ISS\nAB" } }
      = Except.error "TLE does not have enough lines" :=
  ⟨(fetch_tle_only_checks_line_count { r := { text := "ISS\nAB\nCD" } }).1 (by decide),
   (fetch_tle_only_checks_line_count { r := { text := "ISS\nAB" } }).2 (by decide)⟩

/-- C8 counterexample: loading `tle_fetcher` from a world with an empty
request log leaves a network GET in the log — importing the module does
perform a network request as a side effect. -/
theorem import_tle_fetcher_performs_get :
    (import_tle_fetcher { remote := "", log := [] }).1.log ≠ [] := by
  simp [import_tle_fetcher, requests_get]

/-- C8 amended: the catalog HTTP GET is issued exactly once, as a side
effect of importing `tle_fetcher`; a call of `fetch_tle` itself issues no
network request and leaves the world unchanged, returning a result or
error computed from the captured response. -/
theorem import_time_fetch_effects :
    (∀ w : World,
      (import_tle_fetcher w).1.log = w.log ++ [NetEffect.get catalogURL])
    ∧ (∀ (w : World) (m : TleFetcherModule), (fetch_tle_call w m).1 = w) :=
  ⟨fun _ => rfl, fun _ _ => rfl⟩

/-- C10: `fetch_tle` reads only the response captured when `tle_fetcher`
was imported: calls from any two worlds (any later times, any changes to
the remote catalog) return the same dictionary, the call never touches
the world, and the parsed text is exactly the remote text from import
time. -/
theorem fetch_tle_uses_captured_response (m : TleFetcherModule)
    (w1 w2 w0 : World) :
    (fetch_tle_call w1 m).2 = (fetch_tle_call w2 m).2
    ∧ (fetch_tle_call w1 m).1 = w1
    ∧ fetch_tle (import_tle_fetcher w0).2 = fetchTleOfText w0.remote :=
  ⟨rfl, rfl, rfl⟩

end OrbitalTracker
